import Mathlib

/-!
Verification development for the local-events-finder application (`app.py`).

The embedding models the normalization pipeline of the application:
date/time parsing (`parse_event_datetime`), location cleanup
(`parse_event_location`), categorization (`categorize_event`), aggregation
with fallback synthesis (`get_events_from_multiple_sources`), the digest
builder (`create_weekend_digest`), the `/filter-events` handler
(`filter_events`) and the `/search` handler (`search_events`).

Machine dates are modelled by the `DateTime` structure (year, month, day,
hour, minute, second over `Nat`), ordered lexicographically exactly as
Python's `datetime` comparison orders valid datetimes.  The ambient
`datetime.now()` is passed explicitly as a `now : DateTime` parameter, and
the third-party fuzzy parser (`dateutil.parser.parse`) is passed as an
explicit function parameter, since it is an external black box.  The
stdlib `datetime.strptime` is embedded as an executable interpreter of the
format directives used by the application (`%A %B %b %d %m %Y %H %I %M %S
%p` and literal/whitespace characters), including CPython's alternation
order for numeric fields, case-insensitive matching, the `%I`/`%p` hour
post-processing, and construction-time calendar validation.
-/

structure DateTime where
  year : Nat
  month : Nat
  day : Nat
  hour : Nat
  minute : Nat
  second : Nat
deriving DecidableEq, Repr

/-- Python's whitespace class for `str.strip` and `\s` in `strptime`. -/
def pySpaceChar (c : Char) : Bool :=
  c.toNat = 32 || c.toNat = 9 || c.toNat = 10 || c.toNat = 13 || c.toNat = 11 || c.toNat = 12

/-- Lowercasing of a character, as `str.lower` acts on ASCII text. -/
def lc (c : Char) : Char := c.toLower

/-- `str.lower`. -/
def pyLower (s : String) : String := ⟨s.data.map lc⟩

def dropSpaces (l : List Char) : List Char := l.dropWhile (fun c => pySpaceChar c)

def stripData (l : List Char) : List Char :=
  ((dropSpaces l).reverse.dropWhile (fun c => pySpaceChar c)).reverse

/-- `str.strip()`: remove leading and trailing whitespace. -/
def pyStrip (s : String) : String := ⟨stripData s.data⟩

/-- Leap years of the Gregorian calendar, as in Python's `calendar.isleap`. -/
def isLeap (y : Nat) : Bool := y % 4 = 0 && (y % 100 ≠ 0 || y % 400 = 0)

def daysInMonth (y m : Nat) : Nat :=
  if m = 2 then (if isLeap y then 29 else 28)
  else if m = 4 || m = 6 || m = 9 || m = 11 then 30
  else 31

/-- The validity check performed by the `datetime` constructor (and hence by
`datetime.strptime` and `datetime.replace`). -/
def DateTime.validB (d : DateTime) : Bool :=
  1 ≤ d.year && d.year ≤ 9999 && 1 ≤ d.month && d.month ≤ 12 &&
  1 ≤ d.day && d.day ≤ daysInMonth d.year d.month &&
  d.hour ≤ 23 && d.minute ≤ 59 && d.second ≤ 59

/-- Python `datetime` strict comparison: lexicographic on
(year, month, day, hour, minute, second). -/
def dtLt (a b : DateTime) : Bool :=
  if a.year ≠ b.year then decide (a.year < b.year)
  else if a.month ≠ b.month then decide (a.month < b.month)
  else if a.day ≠ b.day then decide (a.day < b.day)
  else if a.hour ≠ b.hour then decide (a.hour < b.hour)
  else if a.minute ≠ b.minute then decide (a.minute < b.minute)
  else decide (a.second < b.second)

/-- Python `datetime` non-strict comparison. -/
def dtLe (a b : DateTime) : Bool := dtLt a b || a == b

/-- `datetime.replace(year=y)`: revalidates the date; raises `ValueError`
(modelled by `none`) when e.g. Feb 29 is moved to a non-leap year. -/
def replaceYear (d : DateTime) (y : Nat) : Option DateTime :=
  if DateTime.validB { d with year := y } then some { d with year := y } else none

def digitVal (c : Char) : Nat := c.toNat - 48

/-- `%d`: CPython regex `(3[01]|[12]\d|0[1-9]|[1-9])`, alternatives in order. -/
def matchDay : List Char → Option (Nat × List Char)
  | c1 :: c2 :: rest =>
    if c1 = '3' && (c2 = '0' || c2 = '1') then some (30 + digitVal c2, rest)
    else if (c1 = '1' || c1 = '2') && c2.isDigit then some (10 * digitVal c1 + digitVal c2, rest)
    else if c1 = '0' && ('1' ≤ c2 && c2 ≤ '9') then some (digitVal c2, rest)
    else if '1' ≤ c1 && c1 ≤ '9' then some (digitVal c1, c2 :: rest)
    else none
  | [c1] => if '1' ≤ c1 && c1 ≤ '9' then some (digitVal c1, []) else none
  | [] => none

/-- `%m` and `%I`: CPython regex `(1[0-2]|0[1-9]|[1-9])`. -/
def matchMonthNum : List Char → Option (Nat × List Char)
  | c1 :: c2 :: rest =>
    if c1 = '1' && ('0' ≤ c2 && c2 ≤ '2') then some (10 + digitVal c2, rest)
    else if c1 = '0' && ('1' ≤ c2 && c2 ≤ '9') then some (digitVal c2, rest)
    else if '1' ≤ c1 && c1 ≤ '9' then some (digitVal c1, c2 :: rest)
    else none
  | [c1] => if '1' ≤ c1 && c1 ≤ '9' then some (digitVal c1, []) else none
  | [] => none

/-- `%H`: CPython regex `(2[0-3]|[0-1]\d|\d)`. -/
def matchHour24 : List Char → Option (Nat × List Char)
  | c1 :: c2 :: rest =>
    if c1 = '2' && ('0' ≤ c2 && c2 ≤ '3') then some (20 + digitVal c2, rest)
    else if (c1 = '0' || c1 = '1') && c2.isDigit then some (10 * digitVal c1 + digitVal c2, rest)
    else if c1.isDigit then some (digitVal c1, c2 :: rest)
    else none
  | [c1] => if c1.isDigit then some (digitVal c1, []) else none
  | [] => none

/-- `%M`: CPython regex `([0-5]\d|\d)`. -/
def matchMinute : List Char → Option (Nat × List Char)
  | c1 :: c2 :: rest =>
    if ('0' ≤ c1 && c1 ≤ '5') && c2.isDigit then some (10 * digitVal c1 + digitVal c2, rest)
    else if c1.isDigit then some (digitVal c1, c2 :: rest)
    else none
  | [c1] => if c1.isDigit then some (digitVal c1, []) else none
  | [] => none

/-- `%S`: CPython regex `(6[01]|[0-5]\d|\d)`. -/
def matchSecond : List Char → Option (Nat × List Char)
  | c1 :: c2 :: rest =>
    if c1 = '6' && (c2 = '0' || c2 = '1') then some (60 + digitVal c2, rest)
    else if ('0' ≤ c1 && c1 ≤ '5') && c2.isDigit then some (10 * digitVal c1 + digitVal c2, rest)
    else if c1.isDigit then some (digitVal c1, c2 :: rest)
    else none
  | [c1] => if c1.isDigit then some (digitVal c1, []) else none
  | [] => none

/-- `%Y`: CPython regex `(\d\d\d\d)`. -/
def matchYear4 : List Char → Option (Nat × List Char)
  | a :: b :: c :: d :: rest =>
    if a.isDigit && b.isDigit && c.isDigit && d.isDigit then
      some (1000 * digitVal a + 100 * digitVal b + 10 * digitVal c + digitVal d, rest)
    else none
  | _ => none

/-- `%p`: `AM`/`PM`, case-insensitively; `true` means PM. -/
def matchAmPm : List Char → Option (Bool × List Char)
  | c1 :: c2 :: rest =>
    if lc c2 = 'm' then
      if lc c1 = 'a' then some (false, rest)
      else if lc c1 = 'p' then some (true, rest)
      else none
    else none
  | _ => none

def monthNames : List String :=
  ["January", "February", "March", "April", "May", "June",
   "July", "August", "September", "October", "November", "December"]

def monthAbbrs : List String :=
  ["Jan", "Feb", "Mar", "Apr", "May", "Jun", "Jul", "Aug", "Sep", "Oct", "Nov", "Dec"]

def dayNames : List String :=
  ["Monday", "Tuesday", "Wednesday", "Thursday", "Friday", "Saturday", "Sunday"]

/-- Consume `name` from the front of `ds`, case-insensitively. -/
def eatNameCI : List Char → List Char → Option (List Char)
  | [], ds => some ds
  | _ :: _, [] => none
  | p :: ps, d :: ds => if lc p = lc d then eatNameCI ps ds else none

/-- Try each name in order (the lists above have no name that is a proper
ambiguous match of another), returning its index offset by `start`. -/
def matchFromList (names : List String) (start : Nat) (ds : List Char) : Option (Nat × List Char) :=
  match names with
  | [] => none
  | n :: ns =>
    match eatNameCI n.data ds with
    | some rest => some (start, rest)
    | none => matchFromList ns (start + 1) ds

/-- The fields collected by `_strptime` before building the `datetime`,
with CPython's defaults (year 1900, month 1, day 1, time 00:00:00). -/
structure TmAcc where
  year : Nat := 1900
  month : Nat := 1
  day : Nat := 1
  hourH : Option Nat := none
  hourI : Option Nat := none
  isPM : Option Bool := none
  minute : Nat := 0
  second : Nat := 0
deriving DecidableEq, Repr

/-- The format interpreter of `datetime.strptime`, covering the directives
used by `app.py` (`%A %B %b %d %m %Y %H %I %M %S %p`), literal characters
(matched case-insensitively, as CPython compiles the format with
`re.IGNORECASE`), and format whitespace matching one or more data
whitespace characters.  The whole data string must be consumed. -/
def runFmt : List Char → List Char → TmAcc → Option TmAcc
  | [], [], acc => some acc
  | [], _ :: _, _ => none
  | ['%'], _, _ => none
  | '%' :: c :: fs, ds, acc =>
    if c = 'A' then
      match matchFromList dayNames 0 ds with
      | some (_, rest) => runFmt fs rest acc
      | none => none
    else if c = 'B' then
      match matchFromList monthNames 1 ds with
      | some (m, rest) => runFmt fs rest { acc with month := m }
      | none => none
    else if c = 'b' then
      match matchFromList monthAbbrs 1 ds with
      | some (m, rest) => runFmt fs rest { acc with month := m }
      | none => none
    else if c = 'd' then
      match matchDay ds with
      | some (v, rest) => runFmt fs rest { acc with day := v }
      | none => none
    else if c = 'm' then
      match matchMonthNum ds with
      | some (v, rest) => runFmt fs rest { acc with month := v }
      | none => none
    else if c = 'Y' then
      match matchYear4 ds with
      | some (v, rest) => runFmt fs rest { acc with year := v }
      | none => none
    else if c = 'H' then
      match matchHour24 ds with
      | some (v, rest) => runFmt fs rest { acc with hourH := some v }
      | none => none
    else if c = 'I' then
      match matchMonthNum ds with
      | some (v, rest) => runFmt fs rest { acc with hourI := some v }
      | none => none
    else if c = 'M' then
      match matchMinute ds with
      | some (v, rest) => runFmt fs rest { acc with minute := v }
      | none => none
    else if c = 'S' then
      match matchSecond ds with
      | some (v, rest) => runFmt fs rest { acc with second := v }
      | none => none
    else if c = 'p' then
      match matchAmPm ds with
      | some (b, rest) => runFmt fs rest { acc with isPM := some b }
      | none => none
    else none
  | c :: fs, ds, acc =>
    if pySpaceChar c then
      match ds with
      | d :: ds2 => if pySpaceChar d then runFmt fs (dropSpaces ds2) acc else none
      | [] => none
    else
      match ds with
      | d :: ds2 => if lc c = lc d then runFmt fs ds2 acc else none
      | [] => none

/-- CPython's post-processing of the collected fields: `%H` wins, otherwise
`%I` combined with `%p`, and the result is validated by the `datetime`
constructor. -/
def tmToDateTime (t : TmAcc) : Option DateTime :=
  let hour : Nat :=
    match t.hourH with
    | some h => h
    | none =>
      match t.hourI with
      | some h12 =>
        match t.isPM with
        | some true => if h12 = 12 then 12 else h12 + 12
        | _ => if h12 = 12 then 0 else h12
      | none => 0
  let d : DateTime := ⟨t.year, t.month, t.day, hour, t.minute, t.second⟩
  if d.validB then some d else none

/-- `datetime.strptime(s, fmt)`; `none` models a raised `ValueError`. -/
def strptime (fmt s : String) : Option DateTime :=
  match runFmt fmt.data s.data {} with
  | some t => tmToDateTime t
  | none => none

/-- The five explicit patterns tried by `parse_event_datetime`, in order
(`app.py` lines 44-50). -/
def datePatterns : List String :=
  ["%A, %B %d, %Y at %I:%M %p",
   "%B %d, %Y at %I:%M %p",
   "%m/%d/%Y at %I:%M %p",
   "%Y-%m-%d %H:%M:%S",
   "%A, %b %d at %I:%M %p"]

/-- The `for pattern in patterns` loop of `parse_event_datetime`: the first
pattern whose `strptime` succeeds is rolled forward to `now.year + 1` when
strictly in the past; a `ValueError` raised by `replace` (Feb 29 moved to a
non-leap year) is caught and the loop continues. -/
def tryPatterns (now : DateTime) : List String → String → Option DateTime
  | [], _ => none
  | p :: ps, s =>
    match strptime p s with
    | none => tryPatterns now ps s
    | some d =>
      if dtLt d now then
        match replaceYear d (now.year + 1) with
        | some d2 => some d2
        | none => tryPatterns now ps s
      else some d

/-- The fallback block of `parse_event_datetime`: the fuzzy result is rolled
forward when strictly in the past; the bare `except` catches both a parse
failure and the `ValueError` of `replace`, returning `None`. -/
def rollFuzzy (fuzzy : String → Option DateTime) (now : DateTime) (s : String) : Option DateTime :=
  match fuzzy s with
  | some pd => if dtLt pd now then replaceYear pd (now.year + 1) else some pd
  | none => none

/-- `parse_event_datetime(date_string, city)` from `app.py`.  `fuzzy` is the
external `dateutil.parser.parse(date_string, fuzzy=True)` black box
(`none` models a raised exception) and `now` is `datetime.now()`. -/
def parse_event_datetime (fuzzy : String → Option DateTime) (now : DateTime)
    (date_string city : String) : Option DateTime :=
  if date_string = "" || date_string = "Date/Time TBA" then none
  else
    match tryPatterns now datePatterns date_string with
    | some d => some d
    | none => rollFuzzy fuzzy now date_string

/-- The point-in-time a date string parses to, before the past-date
roll-forward: the first explicit pattern that matches, else the fuzzy
fallback.  Used to state claims about "the parsed date". -/
def firstParse (fuzzy : String → Option DateTime) : List String → String → Option DateTime
  | [], s => fuzzy s
  | p :: ps, s =>
    match strptime p s with
    | some d => some d
    | none => firstParse fuzzy ps s

/-- Character-count string length, as Python `len`. -/
def pyLen (s : String) : Nat := s.data.length

/-- Python `location.startswith(prefix)`. -/
def startsWithData : List Char → List Char → Bool
  | [], _ => true
  | _ :: _, [] => false
  | p :: ps, d :: ds => p = d && startsWithData ps ds

/-- Python slice `location[n:]`. -/
def dropCharsStr (n : Nat) (s : String) : String := ⟨s.data.drop n⟩

/-- The prefix-label removal loop of `parse_event_location`
(`app.py` lines 82-85): each label is stripped (and the rest re-stripped)
when the current text starts with it. -/
def stripLabels (loc : String) : String :=
  List.foldl
    (fun l p => if startsWithData p.data l.data then pyStrip (dropCharsStr (pyLen p) l) else l)
    loc
    ["Location:", "Venue:", "Address:", "Where:"]

/-- `parse_event_location(location_string, city)` from `app.py`. -/
def parse_event_location (location_string city : String) : String :=
  if location_string = "" || pyStrip location_string = city then "Downtown " ++ city
  else
    let location := stripLabels (pyStrip location_string)
    if pyLen location < 5 ||
        (pyLower location = "tba" || pyLower location = "to be announced" ||
         pyLower location = "online" || pyLower location = "virtual") then
      city ++ " Area"
    else location

/-- Substring containment, as Python's `in` on strings. -/
def containsData (t p : List Char) : Bool :=
  startsWithData p t ||
    match t with
    | [] => false
    | _ :: ts => containsData ts p

/-- `EVENT_CATEGORIES` from `app.py` lines 19-28, in declaration order. -/
def EVENT_CATEGORIES : List (String × List String) :=
  [("music", ["concert", "band", "dj", "music", "live music", "festival", "acoustic",
              "jazz", "rock", "pop"]),
   ("sports", ["game", "match", "tournament", "league", "sports", "football",
               "basketball", "soccer", "tennis", "golf"]),
   ("arts", ["art", "museum", "gallery", "exhibition", "theater", "performance",
             "dance", "ballet", "opera", "sculpture"]),
   ("technology", ["tech", "coding", "hackathon", "conference", "workshop", "ai",
                   "startup", "programming", "software", "digital"]),
   ("food", ["food", "cooking", "tasting", "restaurant", "culinary", "wine", "beer",
             "chef", "dining", "cuisine"]),
   ("education", ["workshop", "seminar", "lecture", "course", "training", "webinar",
                  "class", "learning", "tutorial"]),
   ("networking", ["networking", "meetup", "professional", "business", "career",
                   "entrepreneur", "corporate"]),
   ("other", [])]

/-- `any(keyword in text for keyword in keywords)`. -/
def kwMatch (text : List Char) (kws : List String) : Bool :=
  kws.any (fun kw => containsData text kw.data)

/-- The `for category, keywords in EVENT_CATEGORIES.items()` loop. -/
def catLoop (text : List Char) : List (String × List String) → String
  | [] => "other"
  | (cat, kws) :: rest => if kwMatch text kws then cat else catLoop text rest

/-- `categorize_event(title, description)` from `app.py`. -/
def categorize_event (title description : String) : String :=
  catLoop (pyLower (title ++ " " ++ description)).data EVENT_CATEGORIES

/-- The event record built by the extractors and the fallback synthesizer
(`app.py` event dictionaries). -/
structure Event where
  title : String
  date_time : String
  parsed_datetime : Option DateTime
  location : String
  description : String
  category : String
  event_url : String
deriving DecidableEq, Repr

/-- The deduplication key: `event['title'].lower().strip()`. -/
def normKey (e : Event) : String := pyStrip (pyLower e.title)

/-- The deduplication loop of `get_events_from_multiple_sources`
(`app.py` lines 353-360): keep the first record for each key. -/
def dedupFirst (seen : List String) : List Event → List Event
  | [] => []
  | e :: es =>
    if normKey e ∈ seen then dedupFirst seen es
    else e :: dedupFirst (normKey e :: seen) es

/-- The concatenated source results: Meetup is consulted only when
Eventbrite produced fewer than 5 events (`app.py` lines 335-350). -/
def aggInput (eventbrite meetup : List Event) : List Event :=
  if eventbrite.length < 5 then eventbrite ++ meetup else eventbrite

def addOneDay (d : DateTime) : DateTime :=
  if d.day < daysInMonth d.year d.month then { d with day := d.day + 1 }
  else if d.month < 12 then { d with month := d.month + 1, day := 1 }
  else { d with year := d.year + 1, month := 1, day := 1 }

def addDays (d : DateTime) : Nat → DateTime
  | 0 => d
  | n + 1 => addOneDay (addDays d n)

/-- `dt + timedelta(days=days, hours=hours, minutes=minutes)`: exact
duration addition with carries into the calendar date. -/
def pyAdd (dt : DateTime) (days hours minutes : Nat) : DateTime :=
  addDays { dt with hour := (dt.hour * 60 + dt.minute + hours * 60 + minutes) % 1440 / 60,
                    minute := (dt.hour * 60 + dt.minute + hours * 60 + minutes) % 60 }
    (days + (dt.hour * 60 + dt.minute + hours * 60 + minutes) / 1440)

/-- Days of years 1..(y-1) in the proleptic Gregorian calendar, as used by
Python's `date.toordinal`. -/
def daysBeforeYear (y : Nat) : Nat :=
  365 * (y - 1) + (y - 1) / 4 - (y - 1) / 100 + (y - 1) / 400

def daysBeforeMonth (y m : Nat) : Nat :=
  (match m with
   | 1 => 0 | 2 => 31 | 3 => 59 | 4 => 90 | 5 => 120 | 6 => 151
   | 7 => 181 | 8 => 212 | 9 => 243 | 10 => 273 | 11 => 304 | _ => 334) +
  (if 3 ≤ m && isLeap y then 1 else 0)

/-- `date.toordinal()`: day 1 is January 1 of year 1. -/
def dayNumber (d : DateTime) : Nat :=
  daysBeforeYear d.year + daysBeforeMonth d.year d.month + d.day

def pad2 (n : Nat) : String := if n < 10 then "0" ++ toString n else toString n

def pad4 (n : Nat) : String :=
  if n < 10 then "000" ++ toString n
  else if n < 100 then "00" ++ toString n
  else if n < 1000 then "0" ++ toString n
  else toString n

/-- `strftime("%A, %B %d, %Y at <timeText>")` as used by the fallback
records: `date(1,1,1)` is a Monday, so the weekday index is
`(toordinal - 1) % 7`. -/
def strftimeFallback (d : DateTime) (timeText : String) : String :=
  dayNames.getD ((dayNumber d + 6) % 7) "" ++ ", " ++
  monthNames.getD (d.month - 1) "" ++ " " ++ pad2 d.day ++ ", " ++ pad4 d.year ++
  " at " ++ timeText

/-- `city.lower().replace(" ", "-")`. -/
def urlSlug (city : String) : String :=
  ⟨(pyLower city).data.map (fun c => if c.toNat = 32 then '-' else c)⟩

/-- `city.replace(' ', '%20')`. -/
def urlCity (city : String) : String :=
  ⟨city.data.foldr (fun c acc => if c.toNat = 32 then '%' :: '2' :: '0' :: acc else c :: acc) []⟩

/-- The five synthesized demo events (`app.py` lines 369-415), anchored at
`base_date = now + timedelta(days=1)`. -/
def fallbackEvents (city : String) (now : DateTime) : List Event :=
  [{ title := "Community Art Festival - " ++ city,
     date_time := strftimeFallback (pyAdd now 2 0 0) "2:00 PM",
     parsed_datetime := some (pyAdd (pyAdd now 1 0 0) 1 14 0),
     location := "Downtown " ++ city,
     description := "Join us for a vibrant community art festival featuring local artists, live music, and food vendors. Experience the best of local creativity with interactive exhibits, workshops, and performances.",
     category := "arts",
     event_url := "https://www.eventbrite.com/d/" ++ urlSlug city ++ "/events/" },
   { title := "Tech Innovation Meetup - " ++ city,
     date_time := strftimeFallback (pyAdd now 4 0 0) "6:00 PM",
     parsed_datetime := some (pyAdd (pyAdd now 1 0 0) 3 18 0),
     location := city ++ " Convention Center",
     description := "Network with local tech professionals and learn about the latest trends in artificial intelligence, blockchain, and software development. Featuring keynote speakers and networking opportunities.",
     category := "technology",
     event_url := "https://www.meetup.com/find/?keywords=tech&location=" ++ urlCity city },
   { title := "Weekend Farmers Market - " ++ city,
     date_time := strftimeFallback (pyAdd now 3 0 0) "8:00 AM",
     parsed_datetime := some (pyAdd (pyAdd now 1 0 0) 2 8 0),
     location := city ++ " City Square",
     description := "Fresh produce, local crafts, and delicious food from local vendors every weekend. Support local farmers and artisans while enjoying live music and family-friendly activities.",
     category := "food",
     event_url := "https://www.eventbrite.com/d/" ++ urlSlug city ++ "/food--and--drink--events/" },
   { title := "Live Jazz Night - " ++ city,
     date_time := strftimeFallback (pyAdd now 5 0 0) "8:00 PM",
     parsed_datetime := some (pyAdd (pyAdd now 1 0 0) 4 20 0),
     location := "Blue Note Cafe, " ++ city,
     description := "An evening of smooth jazz featuring local musicians and guest performers. Enjoy craft cocktails and appetizers while listening to the best jazz music in the city.",
     category := "music",
     event_url := "https://www.eventbrite.com/d/" ++ urlSlug city ++ "/music--events/" },
   { title := "Business Networking Breakfast - " ++ city,
     date_time := strftimeFallback (pyAdd now 6 0 0) "7:30 AM",
     parsed_datetime := some (pyAdd (pyAdd now 1 0 0) 5 7 30),
     location := city ++ " Business Center",
     description := "Connect with local entrepreneurs, business owners, and professionals over breakfast. Exchange ideas, build partnerships, and grow your professional network.",
     category := "networking",
     event_url := "https://www.meetup.com/find/?keywords=networking&location=" ++ urlCity city }]

/-- `get_events_from_multiple_sources(city)` from `app.py`, with the two
scraper results passed in (they are network black boxes). -/
def get_events_from_multiple_sources (eventbrite meetup : List Event) (city : String)
    (now : DateTime) : List Event :=
  let unique_events := dedupFirst [] (aggInput eventbrite meetup)
  (if unique_events = [] then fallbackEvents city now else unique_events).take 10

/-- Python slice `s[:n]`. -/
def pyTake (n : Nat) (s : String) : String := ⟨s.data.take n⟩

/-- One numbered digest entry (`app.py` lines 429-432). -/
def entryBlock (i : Nat) (e : Event) : String :=
  toString i ++ ". " ++ e.title ++ "\n   📅 " ++ e.date_time ++ "\n   📍 " ++ e.location ++
  "\n   📝 " ++ pyTake 100 e.description ++ "...\n\n"

/-- The `for i, event in enumerate(top_events, 1)` loop. -/
def entriesFrom : Nat → List Event → String
  | _, [] => ""
  | i, e :: es => entryBlock i e ++ entriesFrom (i + 1) es

/-- `create_weekend_digest(events)` from `app.py`. -/
def create_weekend_digest (events : List Event) : String :=
  if events = [] then "No events found for this weekend."
  else
    "🎉 Weekend Plan Digest 🎉\n\n" ++
    ("Here are the top " ++ toString (events.take 3).length ++
     " events happening this weekend:\n\n") ++
    entriesFrom 1 (events.take 3) ++
    "Have a great weekend exploring these amazing events! 🌟"

/-- The filter spec of the `/filter-events` request. -/
structure Filters where
  category : Option String
  date_from : Option String
  date_to : Option String
  search : Option String
deriving DecidableEq, Repr

/-- Python truthiness of an optional string (`filters.get(...)`): a missing
key and an empty string are both falsy. -/
def truthy (o : Option String) : Option String :=
  match o with
  | none => none
  | some s => if s = "" then none else some s

/-- One date-bound stage of `filter_events`; `none` models the unhandled
`ValueError` of `datetime.strptime` on a malformed date string.  `cmp`
instantiates to `>= from_date` resp. `<= to_date`. -/
def applyDateBound (cmp : DateTime → DateTime → Bool) (evs : List Event) :
    Option String → Option (List Event)
  | none => some evs
  | some s =>
    match strptime "%Y-%m-%d" s with
    | some bound =>
      some (evs.filter (fun e =>
        match e.parsed_datetime with
        | some t => cmp t bound
        | none => false))
    | none => none

/-- The category stage of `filter_events`. -/
def applyCategory (events : List Event) (o : Option String) : List Event :=
  match o with
  | some c => if c = "all" then events else events.filter (fun e => e.category == c)
  | none => events

/-- The search stage of `filter_events`: case-insensitive substring match
against title or description. -/
def applySearch (events : List Event) (o : Option String) : List Event :=
  match o with
  | some srch =>
    events.filter (fun e =>
      containsData (pyLower e.title).data (pyLower srch).data ||
      containsData (pyLower e.description).data (pyLower srch).data)
  | none => events

/-- `filter_events` (the `/filter-events` handler, `app.py` lines 527-554),
stage by stage: category, date_from, date_to, search. -/
def filter_events (events : List Event) (filters : Filters) : Option (List Event) :=
  match applyDateBound (fun t bound => dtLe bound t)
      (applyCategory events (truthy filters.category)) (truthy filters.date_from) with
  | none => none
  | some f2 =>
    match applyDateBound (fun t bound => dtLe t bound) f2 (truthy filters.date_to) with
    | none => none
    | some f3 => some (applySearch f3 (truthy filters.search))

/-- The response of the `/search` handler. -/
inductive SearchResult where
  | err (msg : String)
  | ok (city : String) (events : List Event) (digest : String) (total : Nat)
deriving DecidableEq, Repr

/-- `search_events` (the `/search` handler, `app.py` lines 485-504):
`form_city` is `request.form.get('city')` (`none` when the field is
absent, in which case the default `'Detroit'` applies), and the scraper
results are passed in as for the aggregator. -/
def search_events (eventbrite meetup : List Event) (now : DateTime)
    (form_city : Option String) : SearchResult :=
  let city := pyStrip (form_city.getD "Detroit")
  if city = "" then .err "Please enter a city name"
  else
    let events := get_events_from_multiple_sources eventbrite meetup city now
    .ok city events (create_weekend_digest events) events.length

theorem dtLt_year_succ (d now : DateTime) (h : d.year = now.year + 1) : dtLt d now = false := by
  have h1 : d.year ≠ now.year := by omega
  have h2 : ¬ d.year < now.year := by omega
  unfold dtLt
  rw [if_pos h1]
  exact decide_eq_false h2

theorem replaceYear_year (d : DateTime) (y : Nat) (d2 : DateTime)
    (h : replaceYear d y = some d2) : d2.year = y := by
  unfold replaceYear at h
  split at h
  · injection h with h2
    rw [← h2]
  · cases h

theorem tryPatterns_not_past (now : DateTime) (ps : List String) (s : String) (d : DateTime)
    (h : tryPatterns now ps s = some d) : dtLt d now = false := by
  induction ps with
  | nil => cases h
  | cons p ps ih =>
    unfold tryPatterns at h
    cases hs : strptime p s with
    | none =>
      rw [hs] at h
      exact ih h
    | some pd =>
      rw [hs] at h
      simp only [] at h
      by_cases hlt : dtLt pd now = true
      · rw [if_pos hlt] at h
        cases hr : replaceYear pd (now.year + 1) with
        | none =>
          rw [hr] at h
          simp only [] at h
          exact ih h
        | some d2 =>
          rw [hr] at h
          simp only [] at h
          injection h with h2
          subst h2
          exact dtLt_year_succ d2 now (replaceYear_year pd _ d2 hr)
      · rw [if_neg hlt] at h
        injection h with h2
        subst h2
        simp only [Bool.not_eq_true] at hlt
        exact hlt

/-- C6: whenever `parse_event_datetime` returns a resolved point-in-time
(rather than `None`), that point-in-time is never strictly before the
current moment `now`, for every fuzzy-parser behavior, every input string
and every city. -/
theorem C6_resolved_not_past (fuzzy : String → Option DateTime) (now : DateTime)
    (date_string city : String) (d : DateTime)
    (h : parse_event_datetime fuzzy now date_string city = some d) : dtLt d now = false := by
  unfold parse_event_datetime at h
  split at h
  · cases h
  · cases ht : tryPatterns now datePatterns date_string with
    | some d0 =>
      rw [ht] at h
      injection h with h2
      subst h2
      exact tryPatterns_not_past now _ _ _ ht
    | none =>
      rw [ht] at h
      unfold rollFuzzy at h
      cases hf : fuzzy date_string with
      | none =>
        rw [hf] at h
        cases h
      | some pd =>
        rw [hf] at h
        simp only [] at h
        by_cases hlt : dtLt pd now = true
        · rw [if_pos hlt] at h
          exact dtLt_year_succ d now (replaceYear_year pd _ d h)
        · rw [if_neg hlt] at h
          injection h with h2
          subst h2
          simp only [Bool.not_eq_true] at hlt
          exact hlt

/-- Witness for C6 at a concrete run: the input "2020-08-31 14:00:00",
parsed at now = 2026-10-12 00:00:00, resolves to 2027-08-31 14:00:00,
which is not before now. -/
theorem C6_resolved_not_past_witness :
    dtLt ⟨2027, 8, 31, 14, 0, 0⟩ ⟨2026, 10, 12, 0, 0, 0⟩ = false :=
  C6_resolved_not_past (fun _ => none) ⟨2026, 10, 12, 0, 0, 0⟩ "2020-08-31 14:00:00" "Detroit"
    ⟨2027, 8, 31, 14, 0, 0⟩ (by decide)

/-- C1 counterexample: the string "2020-08-31 14:00:00" parses (by the
fourth explicit pattern, hence by `firstParse`) to 2020-08-31 14:00:00,
which is strictly before now = 2026-10-12 00:00:00; the claim says the
result is that date rolled forward by exactly one year (year 2021), but
`parse_event_datetime` replaces the year with `now.year + 1`, giving
2027-08-31 14:00:00. -/
theorem C1_counterexample :
    firstParse (fun _ => none) datePatterns "2020-08-31 14:00:00" =
      some ⟨2020, 8, 31, 14, 0, 0⟩ ∧
    dtLt ⟨2020, 8, 31, 14, 0, 0⟩ ⟨2026, 10, 12, 0, 0, 0⟩ = true ∧
    parse_event_datetime (fun _ => none) ⟨2026, 10, 12, 0, 0, 0⟩ "2020-08-31 14:00:00" "Detroit" =
      some ⟨2027, 8, 31, 14, 0, 0⟩ ∧
    (⟨2027, 8, 31, 14, 0, 0⟩ : DateTime) ≠ ⟨2021, 8, 31, 14, 0, 0⟩ := by
  refine ⟨by decide, by decide, by decide, by decide⟩

theorem tryPatterns_roll (fuzzy : String → Option DateTime) (now : DateTime) (ps : List String)
    (s : String) (d : DateTime)
    (h3 : firstParse fuzzy ps s = some d) (h4 : dtLt d now = true)
    (h5 : DateTime.validB { d with year := now.year + 1 } = true) :
    (match tryPatterns now ps s with
     | some r => some r
     | none => rollFuzzy fuzzy now s) = some { d with year := now.year + 1 } := by
  induction ps with
  | nil =>
    unfold firstParse at h3
    unfold tryPatterns rollFuzzy
    rw [h3]
    simp only []
    rw [if_pos h4]
    unfold replaceYear
    rw [if_pos h5]
  | cons p ps ih =>
    unfold firstParse at h3
    unfold tryPatterns
    cases hs : strptime p s with
    | none =>
      rw [hs] at h3
      exact ih h3
    | some d0 =>
      rw [hs] at h3
      injection h3 with h3
      subst h3
      simp only []
      rw [if_pos h4]
      unfold replaceYear
      rw [if_pos h5]

/-- C1 amended: for every date string that parses (by the first explicit
pattern that matches, else the fuzzy fallback) to a point-in-time strictly
before the current moment, `parse_event_datetime` returns that parsed date
with its year replaced by (current year + 1) — keeping month, day and
time — provided that replacement is a valid calendar date; so an input
parsed to year Y in the past resolves to the same month/day/time in year
now.year + 1, not in year Y + 1. -/
theorem C1_roll_replaces_year (fuzzy : String → Option DateTime) (now : DateTime)
    (s city : String) (d : DateTime)
    (h1 : s ≠ "") (h2 : s ≠ "Date/Time TBA")
    (h3 : firstParse fuzzy datePatterns s = some d)
    (h4 : dtLt d now = true)
    (h5 : DateTime.validB { d with year := now.year + 1 } = true) :
    parse_event_datetime fuzzy now s city = some { d with year := now.year + 1 } := by
  unfold parse_event_datetime
  rw [if_neg (by simp [h1, h2])]
  exact tryPatterns_roll fuzzy now datePatterns s d h3 h4 h5

/-- Witness for the amended C1 at a concrete run. -/
theorem C1_roll_replaces_year_witness :
    parse_event_datetime (fun _ => none) ⟨2026, 10, 12, 0, 0, 0⟩ "2020-08-31 14:00:00" "Detroit" =
      some ⟨2027, 8, 31, 14, 0, 0⟩ :=
  C1_roll_replaces_year (fun _ => none) ⟨2026, 10, 12, 0, 0, 0⟩ "2020-08-31 14:00:00" "Detroit"
    ⟨2020, 8, 31, 14, 0, 0⟩ (by decide) (by decide) (by decide) (by decide) (by decide)

/-- C3 counterexample: the claim says the cleanup strips the label prefixes
first and only then compares the remaining text with the city, producing
"<City> Area" on equality.  For input "Venue: Detroit" with city "Detroit"
the stripped remainder equals the city, so the claim demands
"Detroit Area"; the code compares the (unstripped-of-label) input with the
city before removing labels, and returns the cleaned text "Detroit". -/
theorem C3_counterexample :
    stripLabels (pyStrip "Venue: Detroit") = "Detroit" ∧
    pyStrip "Detroit" = "Detroit" ∧
    parse_event_location "Venue: Detroit" "Detroit" = "Detroit" ∧
    parse_event_location "Venue: Detroit" "Detroit" ≠ "Detroit Area" := by
  refine ⟨by decide, by decide, by decide, by decide⟩

/-- C3 amended: the equality-with-city test happens before label stripping
and yields "Downtown <City>" (as does empty input); only then are the
label prefixes stripped, and the short/generic test yields "<City> Area",
otherwise the cleaned text.  The particular example still holds:
"Venue: TBA" with city "Detroit" yields "Detroit Area". -/
theorem C3_location_cleanup_amended :
    (∀ ls city : String, (ls = "" ∨ pyStrip ls = city) →
        parse_event_location ls city = "Downtown " ++ city) ∧
    (∀ ls city : String, ls ≠ "" → pyStrip ls ≠ city →
        parse_event_location ls city =
          (if pyLen (stripLabels (pyStrip ls)) < 5 ∨
              pyLower (stripLabels (pyStrip ls)) ∈
                (["tba", "to be announced", "online", "virtual"] : List String)
           then city ++ " Area" else stripLabels (pyStrip ls))) ∧
    parse_event_location "Venue: TBA" "Detroit" = "Detroit Area" := by
  refine ⟨?_, ?_, by decide⟩
  · intro ls city h
    unfold parse_event_location
    rcases h with h | h
    · rw [if_pos (by simp [h])]
    · rw [if_pos (by simp [h])]
  · intro ls city h1 h2
    unfold parse_event_location
    rw [if_neg (by simp [h1, h2])]
    refine if_congr ?_ rfl rfl
    simp only [Bool.or_eq_true, decide_eq_true_eq, List.mem_cons, List.not_mem_nil, or_false,
      or_assoc]

/-- Witness for the amended C3 at concrete inputs: a non-empty input whose
trimmed text equals the city takes the first branch. -/
theorem C3_location_cleanup_amended_witness :
    parse_event_location "Detroit" "Detroit" = "Downtown Detroit" :=
  C3_location_cleanup_amended.1 "Detroit" "Detroit" (Or.inr (by decide))

theorem catLoop_find (text : List Char) (l : List (String × List String)) :
    catLoop text l = ((l.find? (fun p => kwMatch text p.2)).map Prod.fst).getD "other" := by
  induction l with
  | nil => rfl
  | cons hd tl ih =>
    obtain ⟨cat, kws⟩ := hd
    by_cases h : kwMatch text kws = true
    · rw [List.find?_cons_of_pos _ (by simpa using h)]
      simp [catLoop, h]
    · simp only [Bool.not_eq_true] at h
      rw [List.find?_cons_of_neg _ (by simpa using h)]
      simp [catLoop, h, ih]

theorem catLoop_mem (text : List Char) (l : List (String × List String)) :
    catLoop text l ∈ "other" :: l.map Prod.fst := by
  induction l with
  | nil => simp [catLoop]
  | cons hd tl ih =>
    obtain ⟨cat, kws⟩ := hd
    by_cases h : kwMatch text kws = true
    · simp [catLoop, h]
    · simp only [Bool.not_eq_true] at h
      simp only [catLoop, h, Bool.false_eq_true, if_false, List.map_cons]
      rcases List.mem_cons.mp ih with h1 | h1
      · simp [h1]
      · simp [h1]

/-- C5: `categorize_event` concatenates and lowercases title and
description, tests the categories in the fixed declaration order of
`EVENT_CATEGORIES`, returns the first category one of whose keywords
occurs as a substring (`List.find?` returns the first match), defaults to
"other" when no keyword of any category matches, and always returns a
member of the fixed 8-member category set. -/
theorem C5_categorize_first_match (title description : String) :
    categorize_event title description =
      (((EVENT_CATEGORIES.find?
            (fun p => kwMatch (pyLower (title ++ " " ++ description)).data p.2)).map
          Prod.fst).getD "other") ∧
    categorize_event title description ∈
      ["music", "sports", "arts", "technology", "food", "education", "networking", "other"] := by
  constructor
  · exact catLoop_find _ _
  · have h := catLoop_mem (pyLower (title ++ " " ++ description)).data EVENT_CATEGORIES
    simp only [EVENT_CATEGORIES, List.map_cons, List.map_nil, List.mem_cons,
      List.not_mem_nil, or_false] at h
    simp only [categorize_event, List.mem_cons, List.not_mem_nil, or_false]
    tauto

/-- C7: the digest is the exact fixed string for an empty list; for any
list with at least 3 records it contains exactly the 3 numbered entries of
the first 3 records in input order, each with the description cut to its
first 100 characters and the ellipsis marker appended unconditionally. -/
theorem C7_digest_format (a b c : Event) (rest : List Event) :
    create_weekend_digest [] = "No events found for this weekend." ∧
    create_weekend_digest (a :: b :: c :: rest) =
      "🎉 Weekend Plan Digest 🎉\n\n" ++
      "Here are the top 3 events happening this weekend:\n\n" ++
      (("1. " ++ a.title ++ "\n   📅 " ++ a.date_time ++ "\n   📍 " ++ a.location ++
          "\n   📝 " ++ pyTake 100 a.description ++ "...\n\n") ++
        (("2. " ++ b.title ++ "\n   📅 " ++ b.date_time ++ "\n   📍 " ++ b.location ++
            "\n   📝 " ++ pyTake 100 b.description ++ "...\n\n") ++
          (("3. " ++ c.title ++ "\n   📅 " ++ c.date_time ++ "\n   📍 " ++ c.location ++
              "\n   📝 " ++ pyTake 100 c.description ++ "...\n\n") ++ ""))) ++
      "Have a great weekend exploring these amazing events! 🌟" := by
  constructor
  · rfl
  · unfold create_weekend_digest
    rw [if_neg (by simp), show (List.take 3 (a :: b :: c :: rest)).length = 3 from rfl]
    rfl

/-- C2 counterexample: with both sources empty, at now = 2026-10-12
00:00:00 and city "Springfield", the aggregator's 2nd record (technology)
resolves to 2026-10-16 18:00 and its 3rd record (food) to 2026-10-15
08:00, so the resolved times are not strictly increasing in the order the
records appear. -/
theorem C2_counterexample :
    ((get_events_from_multiple_sources [] [] "Springfield" ⟨2026, 10, 12, 0, 0, 0⟩).map
        Event.parsed_datetime).get? 1 = some (some ⟨2026, 10, 16, 18, 0, 0⟩) ∧
    ((get_events_from_multiple_sources [] [] "Springfield" ⟨2026, 10, 12, 0, 0, 0⟩).map
        Event.parsed_datetime).get? 2 = some (some ⟨2026, 10, 15, 8, 0, 0⟩) ∧
    dtLt ⟨2026, 10, 15, 8, 0, 0⟩ ⟨2026, 10, 16, 18, 0, 0⟩ = true := by
  refine ⟨by decide, by decide, by decide⟩

/-- C2 amended: when both sources yield no events the aggregator returns
exactly 5 synthesized fallback records whose categories are pairwise
distinct and equal, in record order, to [arts, technology, food, music,
networking]; the resolved times sit at fixed offsets from
base = now + 1 day, namely (+1 day, 14:00h), (+3 days, 18:00h),
(+2 days, 08:00h), (+4 days, 20:00h), (+5 days, 07:30h) in record order —
day offsets +1, +3, +2, +4, +5, which are not strictly increasing in the
order the records appear (the 2nd record is later than the 3rd). -/
theorem C2_fallback_records (city : String) (now : DateTime) :
    (get_events_from_multiple_sources [] [] city now).length = 5 ∧
    (get_events_from_multiple_sources [] [] city now).map Event.category =
      ["arts", "technology", "food", "music", "networking"] ∧
    ((get_events_from_multiple_sources [] [] city now).map Event.category).Pairwise
      (fun a b => a ≠ b) ∧
    (get_events_from_multiple_sources [] [] city now).map Event.parsed_datetime =
      [some (pyAdd (pyAdd now 1 0 0) 1 14 0),
       some (pyAdd (pyAdd now 1 0 0) 3 18 0),
       some (pyAdd (pyAdd now 1 0 0) 2 8 0),
       some (pyAdd (pyAdd now 1 0 0) 4 20 0),
       some (pyAdd (pyAdd now 1 0 0) 5 7 30)] := by
  refine ⟨rfl, rfl, ?_, rfl⟩
  have h : (get_events_from_multiple_sources [] [] city now).map Event.category =
      ["arts", "technology", "food", "music", "networking"] := rfl
  rw [h]
  decide

theorem dedupFirst_key_not_seen (seen : List String) (l : List Event) (e : Event)
    (h : e ∈ dedupFirst seen l) : normKey e ∉ seen := by
  induction l generalizing seen with
  | nil => cases h
  | cons x xs ih =>
    unfold dedupFirst at h
    split at h
    · exact ih seen h
    next hx =>
      rcases List.mem_cons.mp h with h1 | h1
      · subst h1
        exact hx
      · have h2 := ih (normKey x :: seen) h1
        intro hc
        exact h2 (List.mem_cons_of_mem _ hc)

theorem dedupFirst_find (seen : List String) (l : List Event) (e : Event)
    (h : e ∈ dedupFirst seen l) :
    l.find? (fun x => normKey x == normKey e) = some e := by
  induction l generalizing seen with
  | nil => cases h
  | cons x xs ih =>
    unfold dedupFirst at h
    split at h
    next hx =>
      have hne : normKey x ≠ normKey e := by
        intro hc
        exact (dedupFirst_key_not_seen seen xs e h) (hc ▸ hx)
      rw [List.find?_cons_of_neg _ (by simpa using hne)]
      exact ih seen h
    next hx =>
      rcases List.mem_cons.mp h with h1 | h1
      · subst h1
        rw [List.find?_cons_of_pos _ (by simp)]
      · have hkey := dedupFirst_key_not_seen (normKey x :: seen) xs e h1
        have hne : normKey x ≠ normKey e := by
          intro hc
          exact hkey (by rw [← hc]; exact List.mem_cons_self _ _)
        rw [List.find?_cons_of_neg _ (by simpa using hne)]
        exact ih (normKey x :: seen) h1

theorem dedupFirst_pairwise (seen : List String) (l : List Event) :
    (dedupFirst seen l).Pairwise (fun a b => normKey a ≠ normKey b) := by
  induction l generalizing seen with
  | nil => exact List.Pairwise.nil
  | cons x xs ih =>
    unfold dedupFirst
    split
    · exact ih seen
    · refine List.Pairwise.cons ?_ (ih (normKey x :: seen))
      intro b hb hc
      exact (dedupFirst_key_not_seen (normKey x :: seen) xs b hb)
        (by rw [← hc]; exact List.mem_cons_self _ _)

theorem dropWhile_append_last (p : Char → Bool) (c : Char) (hc : p c = false) (xs : List Char) :
    (xs ++ [c]).dropWhile p = xs.dropWhile p ++ [c] := by
  induction xs with
  | nil => simp [List.dropWhile_cons, hc]
  | cons x xs ih =>
    by_cases h : p x = true
    · simp [List.dropWhile_cons, h, ih]
    · simp only [Bool.not_eq_true] at h
      simp [List.dropWhile_cons, h]

theorem stripData_cons (c : Char) (l : List Char) (hc : pySpaceChar c = false) :
    stripData (c :: l) = c :: (l.reverse.dropWhile (fun x => pySpaceChar x)).reverse := by
  unfold stripData dropSpaces
  rw [List.dropWhile_cons]
  simp only [hc, Bool.false_eq_true, if_false]
  rw [List.reverse_cons, dropWhile_append_last _ c hc]
  simp

theorem normKey_head (s city : String) (c : Char) (pre : List Char)
    (hdata : s.data = c :: pre) (hc : pySpaceChar (lc c) = false) :
    ∃ tl, (pyStrip (pyLower (s ++ city))).data = lc c :: tl := by
  have h : stripData ((s ++ city).data.map lc) =
      lc c :: ((List.map lc (pre ++ city.data)).reverse.dropWhile
        (fun x => pySpaceChar x)).reverse := by
    rw [String.data_append, hdata, List.cons_append, List.map_cons, stripData_cons _ _ hc]
  exact ⟨_, h⟩

theorem ne_of_head_ne (x y : String) (a b : Char) (la lb : List Char)
    (hx : x.data = a :: la) (hy : y.data = b :: lb) (hab : a ≠ b) : x ≠ y := by
  intro h
  rw [h, hy] at hx
  injection hx with h1 _
  exact hab h1.symm

theorem fallback_pairwise_keys (city : String) (now : DateTime) :
    (fallbackEvents city now).Pairwise (fun a b => normKey a ≠ normKey b) := by
  obtain ⟨t1, h1⟩ :=
    normKey_head "Community Art Festival - " city 'C' "ommunity Art Festival - ".data
      (by decide) (by decide)
  obtain ⟨t2, h2⟩ :=
    normKey_head "Tech Innovation Meetup - " city 'T' "ech Innovation Meetup - ".data
      (by decide) (by decide)
  obtain ⟨t3, h3⟩ :=
    normKey_head "Weekend Farmers Market - " city 'W' "eekend Farmers Market - ".data
      (by decide) (by decide)
  obtain ⟨t4, h4⟩ :=
    normKey_head "Live Jazz Night - " city 'L' "ive Jazz Night - ".data
      (by decide) (by decide)
  obtain ⟨t5, h5⟩ :=
    normKey_head "Business Networking Breakfast - " city 'B' "usiness Networking Breakfast - ".data
      (by decide) (by decide)
  refine List.Pairwise.cons ?_ (List.Pairwise.cons ?_ (List.Pairwise.cons ?_
    (List.Pairwise.cons ?_ (List.Pairwise.cons (by intro b hb; cases hb) List.Pairwise.nil))))
  · intro b hb
    rcases List.mem_cons.mp hb with rfl | hb
    · exact ne_of_head_ne _ _ _ _ _ _ h1 h2 (by decide)
    rcases List.mem_cons.mp hb with rfl | hb
    · exact ne_of_head_ne _ _ _ _ _ _ h1 h3 (by decide)
    rcases List.mem_cons.mp hb with rfl | hb
    · exact ne_of_head_ne _ _ _ _ _ _ h1 h4 (by decide)
    rcases List.mem_cons.mp hb with rfl | hb
    · exact ne_of_head_ne _ _ _ _ _ _ h1 h5 (by decide)
    cases hb
  · intro b hb
    rcases List.mem_cons.mp hb with rfl | hb
    · exact ne_of_head_ne _ _ _ _ _ _ h2 h3 (by decide)
    rcases List.mem_cons.mp hb with rfl | hb
    · exact ne_of_head_ne _ _ _ _ _ _ h2 h4 (by decide)
    rcases List.mem_cons.mp hb with rfl | hb
    · exact ne_of_head_ne _ _ _ _ _ _ h2 h5 (by decide)
    cases hb
  · intro b hb
    rcases List.mem_cons.mp hb with rfl | hb
    · exact ne_of_head_ne _ _ _ _ _ _ h3 h4 (by decide)
    rcases List.mem_cons.mp hb with rfl | hb
    · exact ne_of_head_ne _ _ _ _ _ _ h3 h5 (by decide)
    cases hb
  · intro b hb
    rcases List.mem_cons.mp hb with rfl | hb
    · exact ne_of_head_ne _ _ _ _ _ _ h4 h5 (by decide)
    cases hb

/-- C4: every aggregator result has at most 10 records, no two of its
records share a title that is equal after lowercasing and trimming, and
whenever the concatenated source input (Eventbrite first, then Meetup when
consulted) is non-empty, each returned record is exactly the first input
record carrying its normalized title — so on a duplicate normalized title
the first occurrence in concatenation order is the one kept. -/
theorem C4_dedup_aggregate (eb mu : List Event) (city : String) (now : DateTime) :
    (get_events_from_multiple_sources eb mu city now).length ≤ 10 ∧
    (get_events_from_multiple_sources eb mu city now).Pairwise
      (fun a b => normKey a ≠ normKey b) ∧
    (∀ e, e ∈ get_events_from_multiple_sources eb mu city now →
      aggInput eb mu ≠ [] →
      (aggInput eb mu).find? (fun x => normKey x == normKey e) = some e) := by
  have hg : get_events_from_multiple_sources eb mu city now =
      (if dedupFirst [] (aggInput eb mu) = [] then fallbackEvents city now
       else dedupFirst [] (aggInput eb mu)).take 10 := rfl
  refine ⟨?_, ?_, ?_⟩
  · rw [hg]
    exact List.length_take_le _ _
  · rw [hg]
    apply List.Pairwise.sublist (List.take_sublist _ _)
    split
    · exact fallback_pairwise_keys city now
    · exact dedupFirst_pairwise [] _
  · intro e he hne
    rw [hg] at he
    have he2 := (List.take_sublist _ _).subset he
    split at he2
    next hemp =>
      exfalso
      apply hne
      cases hagg : aggInput eb mu with
      | nil => rfl
      | cons x xs =>
        rw [hagg] at hemp
        unfold dedupFirst at hemp
        split at hemp
        next hx => cases hx
        next => cases hemp
    next => exact dedupFirst_find [] _ e he2

/-- Witness for C4 at a concrete run: Eventbrite yields two records whose
titles normalize to the same key "jazz fest"; the aggregator keeps the
first of them, and `find?` over the concatenated input returns exactly
that record. -/
theorem C4_dedup_aggregate_witness :
    (aggInput
        [⟨"Jazz Fest", "d1", none, "l1", "x1", "music", "u1"⟩,
         ⟨" jazz fest ", "d2", none, "l2", "x2", "music", "u2"⟩] []).find?
      (fun x => normKey x == normKey ⟨"Jazz Fest", "d1", none, "l1", "x1", "music", "u1"⟩) =
      some ⟨"Jazz Fest", "d1", none, "l1", "x1", "music", "u1"⟩ :=
  (C4_dedup_aggregate
      [⟨"Jazz Fest", "d1", none, "l1", "x1", "music", "u1"⟩,
       ⟨" jazz fest ", "d2", none, "l2", "x2", "music", "u2"⟩] [] "Detroit"
      ⟨2026, 10, 12, 0, 0, 0⟩).2.2
    ⟨"Jazz Fest", "d1", none, "l1", "x1", "music", "u1"⟩ (by decide) (by decide)

theorem applyCategory_sublist (events : List Event) (o : Option String) :
    (applyCategory events o).Sublist events := by
  cases o with
  | none => exact List.Sublist.refl _
  | some c =>
    show (if c = "all" then events else events.filter (fun e => e.category == c)).Sublist events
    split
    · exact List.Sublist.refl _
    · exact List.filter_sublist _

theorem applySearch_sublist (events : List Event) (o : Option String) :
    (applySearch events o).Sublist events := by
  cases o with
  | none => exact List.Sublist.refl _
  | some srch => exact List.filter_sublist _

theorem applyDateBound_sublist (cmp : DateTime → DateTime → Bool) (evs : List Event)
    (o : Option String) (out : List Event)
    (h : applyDateBound cmp evs o = some out) : out.Sublist evs := by
  cases o with
  | none =>
    injection h with h2
    subst h2
    exact List.Sublist.refl _
  | some s =>
    unfold applyDateBound at h
    simp only [] at h
    cases hs : strptime "%Y-%m-%d" s with
    | none =>
      rw [hs] at h
      cases h
    | some bound =>
      rw [hs] at h
      simp only [] at h
      injection h with h2
      subst h2
      exact List.filter_sublist _

/-- C10: for every input event list and every filter spec, whenever the
filter handler returns a result (it raises on malformed date strings), the
output is a subsequence of the input: a sublist (unmodified records, in
the original relative order) in which no record occurs more often than in
the input. -/
theorem C10_filter_subsequence (events : List Event) (filters : Filters) (out : List Event)
    (h : filter_events events filters = some out) :
    out.Sublist events ∧ ∀ e : Event, out.count e ≤ events.count e := by
  have hsub : out.Sublist events := by
    unfold filter_events at h
    cases h2 : applyDateBound (fun t bound => dtLe bound t)
        (applyCategory events (truthy filters.category)) (truthy filters.date_from) with
    | none =>
      rw [h2] at h
      cases h
    | some f2 =>
      rw [h2] at h
      simp only [] at h
      cases h3 : applyDateBound (fun t bound => dtLe t bound) f2 (truthy filters.date_to) with
      | none =>
        rw [h3] at h
        cases h
      | some f3 =>
        rw [h3] at h
        simp only [] at h
        injection h with h4
        subst h4
        exact ((applySearch_sublist f3 _).trans (applyDateBound_sublist _ _ _ _ h3)).trans
          ((applyDateBound_sublist _ _ _ _ h2).trans (applyCategory_sublist events _))
  exact ⟨hsub, fun e => hsub.count_le e⟩

/-- Witness for C10 at a concrete run: a category filter keeps the single
music record, which forms a sublist of the two-record input. -/
theorem C10_filter_subsequence_witness :
    ([⟨"Jazz Fest", "d1", some ⟨2026, 10, 20, 19, 0, 0⟩, "l1", "x1", "music", "u1"⟩] :
        List Event).Sublist
      [⟨"Jazz Fest", "d1", some ⟨2026, 10, 20, 19, 0, 0⟩, "l1", "x1", "music", "u1"⟩,
       ⟨"Tech Meetup", "d2", none, "l2", "x2", "technology", "u2"⟩] :=
  (C10_filter_subsequence
      [⟨"Jazz Fest", "d1", some ⟨2026, 10, 20, 19, 0, 0⟩, "l1", "x1", "music", "u1"⟩,
       ⟨"Tech Meetup", "d2", none, "l2", "x2", "technology", "u2"⟩]
      ⟨some "music", none, none, none⟩
      [⟨"Jazz Fest", "d1", some ⟨2026, 10, 20, 19, 0, 0⟩, "l1", "x1", "music", "u1"⟩]
      (by decide)).1

/-- C8: with date bounds given as calendar dates (parsed by `%Y-%m-%d` to
the midnight `datetime` of that day), the date-range stages keep exactly
the records whose resolved time satisfies the bounds inclusively
(`>= date_from` midnight and `<= date_to` midnight), and every record
with an unresolved time is excluded whenever any date bound is present;
stated for both bounds, only `date_from`, and only `date_to`. -/
theorem C8_date_range_filter :
    (∀ (events : List Event) (dfs dts : String) (fromD toD : DateTime),
        strptime "%Y-%m-%d" dfs = some fromD →
        strptime "%Y-%m-%d" dts = some toD →
        filter_events events ⟨none, some dfs, some dts, none⟩ =
          some (events.filter (fun e =>
            match e.parsed_datetime with
            | some t => dtLe fromD t && dtLe t toD
            | none => false))) ∧
    (∀ (events : List Event) (dfs : String) (fromD : DateTime),
        strptime "%Y-%m-%d" dfs = some fromD →
        filter_events events ⟨none, some dfs, none, none⟩ =
          some (events.filter (fun e =>
            match e.parsed_datetime with
            | some t => dtLe fromD t
            | none => false))) ∧
    (∀ (events : List Event) (dts : String) (toD : DateTime),
        strptime "%Y-%m-%d" dts = some toD →
        filter_events events ⟨none, none, some dts, none⟩ =
          some (events.filter (fun e =>
            match e.parsed_datetime with
            | some t => dtLe t toD
            | none => false))) := by
  have hempty : strptime "%Y-%m-%d" "" = (none : Option DateTime) := rfl
  refine ⟨?_, ?_, ?_⟩
  · intro events dfs dts fromD toD hfrom hto
    have hne1 : dfs ≠ "" := by
      intro hh
      rw [hh, hempty] at hfrom
      cases hfrom
    have hne2 : dts ≠ "" := by
      intro hh
      rw [hh, hempty] at hto
      cases hto
    have ht1 : truthy (some dfs) = some dfs := by
      show (if dfs = "" then none else some dfs) = some dfs
      rw [if_neg hne1]
    have ht2 : truthy (some dts) = some dts := by
      show (if dts = "" then none else some dts) = some dts
      rw [if_neg hne2]
    show (match applyDateBound (fun t bound => dtLe bound t) events (truthy (some dfs)) with
          | none => none
          | some f2 =>
            match applyDateBound (fun t bound => dtLe t bound) f2 (truthy (some dts)) with
            | none => none
            | some f3 => some (applySearch f3 (truthy none))) =
        some (events.filter (fun e =>
          match e.parsed_datetime with
          | some t => dtLe fromD t && dtLe t toD
          | none => false))
    rw [ht1, ht2]
    unfold applyDateBound
    simp only []
    rw [hfrom, hto]
    simp only []
    refine congrArg some ?_
    rw [List.filter_filter]
    refine List.filter_congr ?_
    intro e _
    cases hp : e.parsed_datetime with
    | none => rfl
    | some t => exact Bool.and_comm _ _
  · intro events dfs fromD hfrom
    have hne1 : dfs ≠ "" := by
      intro hh
      rw [hh, hempty] at hfrom
      cases hfrom
    have ht1 : truthy (some dfs) = some dfs := by
      show (if dfs = "" then none else some dfs) = some dfs
      rw [if_neg hne1]
    show (match applyDateBound (fun t bound => dtLe bound t) events (truthy (some dfs)) with
          | none => none
          | some f2 =>
            match applyDateBound (fun t bound => dtLe t bound) f2 (truthy none) with
            | none => none
            | some f3 => some (applySearch f3 (truthy none))) =
        some (events.filter (fun e =>
          match e.parsed_datetime with
          | some t => dtLe fromD t
          | none => false))
    rw [ht1]
    unfold applyDateBound
    simp only []
    rw [hfrom]
    rfl
  · intro events dts toD hto
    have hne2 : dts ≠ "" := by
      intro hh
      rw [hh, hempty] at hto
      cases hto
    have ht2 : truthy (some dts) = some dts := by
      show (if dts = "" then none else some dts) = some dts
      rw [if_neg hne2]
    show (match applyDateBound (fun t bound => dtLe bound t) events (truthy none) with
          | none => none
          | some f2 =>
            match applyDateBound (fun t bound => dtLe t bound) f2 (truthy (some dts)) with
            | none => none
            | some f3 => some (applySearch f3 (truthy none))) =
        some (events.filter (fun e =>
          match e.parsed_datetime with
          | some t => dtLe t toD
          | none => false))
    rw [ht2]
    unfold applyDateBound
    simp only []
    rw [hto]
    rfl

/-- Witness for C8 at a concrete run: bounds 2026-10-01 .. 2026-10-31 over
a list with an in-range resolved record, an out-of-range resolved record
and an unresolved record. -/
theorem C8_date_range_filter_witness :
    filter_events
        [⟨"A", "d1", some ⟨2026, 10, 20, 19, 0, 0⟩, "l1", "x1", "music", "u1"⟩,
         ⟨"B", "d2", some ⟨2026, 11, 5, 9, 0, 0⟩, "l2", "x2", "arts", "u2"⟩,
         ⟨"C", "d3", none, "l3", "x3", "food", "u3"⟩]
        ⟨none, some "2026-10-01", some "2026-10-31", none⟩ =
      some
        (([⟨"A", "d1", some ⟨2026, 10, 20, 19, 0, 0⟩, "l1", "x1", "music", "u1"⟩,
           ⟨"B", "d2", some ⟨2026, 11, 5, 9, 0, 0⟩, "l2", "x2", "arts", "u2"⟩,
           ⟨"C", "d3", none, "l3", "x3", "food", "u3"⟩] : List Event).filter (fun e =>
          match e.parsed_datetime with
          | some t => dtLe ⟨2026, 10, 1, 0, 0, 0⟩ t && dtLe t ⟨2026, 10, 31, 0, 0, 0⟩
          | none => false)) :=
  C8_date_range_filter.1
    [⟨"A", "d1", some ⟨2026, 10, 20, 19, 0, 0⟩, "l1", "x1", "music", "u1"⟩,
     ⟨"B", "d2", some ⟨2026, 11, 5, 9, 0, 0⟩, "l2", "x2", "arts", "u2"⟩,
     ⟨"C", "d3", none, "l3", "x3", "food", "u3"⟩]
    "2026-10-01" "2026-10-31" ⟨2026, 10, 1, 0, 0, 0⟩ ⟨2026, 10, 31, 0, 0, 0⟩
    (by decide) (by decide)

/-- C9: a search request whose city input is present but blank (whitespace
only) yields the single validation error "Please enter a city name",
independently of the scraper results (no aggregation influences the
response); and an absent city field is given the default value "Detroit",
behaving exactly as if "Detroit" had been entered. -/
theorem C9_blank_city (eb mu : List Event) (now : DateTime) (s : String)
    (h : pyStrip s = "") :
    search_events eb mu now (some s) = SearchResult.err "Please enter a city name" ∧
    search_events eb mu now none = search_events eb mu now (some "Detroit") := by
  constructor
  · have hs : search_events eb mu now (some s) =
        (if pyStrip s = "" then SearchResult.err "Please enter a city name"
         else SearchResult.ok (pyStrip s)
           (get_events_from_multiple_sources eb mu (pyStrip s) now)
           (create_weekend_digest (get_events_from_multiple_sources eb mu (pyStrip s) now))
           (get_events_from_multiple_sources eb mu (pyStrip s) now).length) := rfl
    rw [hs, if_pos h]
  · rfl

/-- Witness for C9 at a concrete run: the blank input "   " produces the
validation error, and the absent field behaves as the default "Detroit". -/
theorem C9_blank_city_witness :
    search_events [] [] ⟨2026, 10, 12, 0, 0, 0⟩ (some "   ") =
      SearchResult.err "Please enter a city name" ∧
    search_events [] [] ⟨2026, 10, 12, 0, 0, 0⟩ none =
      search_events [] [] ⟨2026, 10, 12, 0, 0, 0⟩ (some "Detroit") :=
  C9_blank_city [] [] ⟨2026, 10, 12, 0, 0, 0⟩ "   " (by decide)
